import Mathlib

/-!
Verification development for the callout-resolution core of the
FireServiceRota dispatch repository.  The Python sources under
`src/noedudkald` are shallowly embedded as executable Lean definitions:

* `data_sources/normalize.py`   → `normalize_text`, `normalize_address`
* `data_sources/aba.py`         → `AbaDirectory` load / match functions
* `data_sources/addresses.py`   → `find_by_components`
* `data_sources/incidents.py`   → `IncidentMatrix` load / `get_profile`
* `data_sources/task_map.py`    → `parse_task_ids`, `select_task_ids_for_units`
* `rules/aba_rules.py`          → `apply_aba_rules_case_sensitive`
* `rules/resolve_callout.py`    → `resolve`
* `rules/text_composer.py`      → `compose_alert_text`

Modelling conventions: Python strings are Lean `String`s; `None` inputs are
`Option`; pandas dataframes are `List`s of record structures; raised
`ValueError`s become `Except String`.  Unicode NFKC normalization is modelled
as the identity (every string considered in this development is ASCII or a
precomposed Danish letter, on which NFKC is the identity), and Python's
Unicode word/digit character classes are modelled on the alphabet actually
used by the data: ASCII letters, digits, underscore and the Danish letters
Æ/Ø/Å (the regex in `normalize.py` names exactly these in addition to
`\w`).
-/

/-- Python `str.strip()`: drop leading and trailing whitespace.  Defined
directly over the character list so that idempotence is provable. -/
def String.pyStrip (s : String) : String :=
  String.mk (((s.toList.dropWhile Char.isWhitespace).reverse.dropWhile
    Char.isWhitespace).reverse)

/-- Python `str.upper()` restricted to the alphabet used in this
development: ASCII plus the lowercase Danish letters æ/ø/å. -/
def upperChar (c : Char) : Char :=
  if c = 'æ' then 'Æ' else if c = 'ø' then 'Ø' else if c = 'å' then 'Å'
  else c.toUpper

/-- Python `str.lower()` restricted to the same alphabet. -/
def lowerChar (c : Char) : Char :=
  if c = 'Æ' then 'æ' else if c = 'Ø' then 'ø' else if c = 'Å' then 'å'
  else c.toLower

def lowerStr (s : String) : String := String.mk (s.toList.map lowerChar)

def upperStr (s : String) : String := String.mk (s.toList.map upperChar)

/-- A word character in the sense of the regex `[^\wÆØÅ]` of
`normalize.py`, after upper-casing: ASCII letters/digits, underscore, and
the uppercase Danish letters. -/
def isWordChar (c : Char) : Bool :=
  c.isAlphanum || c = '_' || c = 'Æ' || c = 'Ø' || c = 'Å' ||
  c = 'æ' || c = 'ø' || c = 'å'

/-- Collapse runs of spaces to a single space (the `re.sub(r"\s+", " ", s)`
step; at this point in the pipeline every whitespace character has already
been replaced by a plain space). -/
def collapseWs : List Char → List Char
  | [] => []
  | [c] => [c]
  | c :: d :: cs =>
    if c = ' ' && d = ' ' then collapseWs (d :: cs)
    else c :: collapseWs (d :: cs)

/-- `normalize.normalize_text`: trim, NFKC (identity here), upper-case,
replace every non-word character by a space, collapse whitespace, trim. -/
def normalize_text (s : String) : String :=
  let up := s.pyStrip.toList.map upperChar
  let repl := up.map (fun c => if isWordChar c then c else ' ')
  (String.mk (collapseWs repl)).pyStrip

/-- `normalize.normalize_address`: join the non-empty parts with single
spaces, then normalize. -/
def normalize_address (street houseNo houseLetter postcode : String) : String :=
  let parts := [street, houseNo, houseLetter, postcode]
  normalize_text (" ".intercalate (parts.filter (fun p => p ≠ "" && p.pyStrip ≠ "")))

/-- Substring containment, Python's `needle in hay` on strings. -/
def containsSeq (needle : List Char) : List Char → Bool
  | [] => needle.isEmpty
  | c :: cs => needle.isPrefixOf (c :: cs) || containsSeq needle cs

/-- Code-point comparison of strings, as pandas/numpy compare Python
strings when sorting (strict). -/
def charListLt : List Char → List Char → Bool
  | [], [] => false
  | [], _ :: _ => true
  | _ :: _, [] => false
  | a :: as, b :: bs =>
    if a.toNat < b.toNat then true
    else if b.toNat < a.toNat then false
    else charListLt as bs

/-- Code-point comparison of strings (non-strict). -/
def charListLe : List Char → List Char → Bool
  | [], _ => true
  | _ :: _, [] => false
  | a :: as, b :: bs =>
    if a.toNat < b.toNat then true
    else if b.toNat < a.toNat then false
    else charListLe as bs

/-- First occurrence of four consecutive digit characters, the
`str.extract(r"(\d{4})")` step of `aba.py` (with `fillna("")`). -/
def extract4 : List Char → String
  | a :: b :: c :: d :: rest =>
    if a.isDigit && b.isDigit && c.isDigit && d.isDigit then String.mk [a, b, c, d]
    else extract4 (b :: c :: d :: rest)
  | _ => ""

/-- De-duplication keeping the first occurrence, the
`[x for x in xs if not (x in seen or seen.add(x))]` idiom (`seen` is the
accumulator). -/
def dedupFirstAux {α : Type} [DecidableEq α] : List α → List α → List α
  | _, [] => []
  | seen, x :: xs =>
    if x ∈ seen then dedupFirstAux seen xs else x :: dedupFirstAux (x :: seen) xs

def dedupFirst {α : Type} [DecidableEq α] (l : List α) : List α :=
  dedupFirstAux [] l

/-! ## Task Map (`data_sources/task_map.py`) -/

/-- `TaskMap.TaskSelectionResult`. -/
structure TaskSelectionResult where
  task_ids : List Int
  missing_units : List String
  assistance_added : Bool
  assistance_unit : Option String
deriving DecidableEq, Repr

/-- `TaskMap.ASSIST_EXCLUDE_TASK_IDS`: task ids that do not trigger the
assistance auto-alert. -/
def ASSIST_EXCLUDE_TASK_IDS : List Int :=
  [823, 3134, 7040, 6509, 3176, 7035, 7036, 7037, 5474, 1268]

/-- Split a character list at the first `'.'` (Python `s.split(".", 1)`);
only called on lists that contain a dot. -/
def splitDot : List Char → List Char × List Char
  | [] => ([], [])
  | c :: rest =>
    if c = '.' then ([], rest)
    else
      let p := splitDot rest
      (c :: p.1, p.2)

/-- Python `s.rstrip("0")`: drop trailing `'0'` characters. -/
def rstripZeros (l : List Char) : List Char :=
  (l.reverse.dropWhile (fun c => c = '0')).reverse

/-- Python `s.isdigit()` (for the data in this table: nonempty, all ASCII
digits; exotic Unicode digit classes are not modelled). -/
def allDigits (s : String) : Bool :=
  !s.toList.isEmpty && s.toList.all Char.isDigit

/-- Numeric value of an all-digit string (Python `int(s)`). -/
def natOfDigits (l : List Char) : Nat :=
  l.foldl (fun n c => n * 10 + (c.toNat - 48)) 0

/-- Python `int(float(s))` for a dot-free cell, modelled on plain signed
integer strings (the only dot-free numeric shapes that occur in the task
table); other float syntaxes (exponents, `inf`/`nan`, underscores) are out
of scope of the claims and map to `none`, as do the strings on which
`float` raises. -/
def intFloatStr? (s : String) : Option Int :=
  match s.toList with
  | '+' :: rest =>
    if !rest.isEmpty && rest.all Char.isDigit then some (natOfDigits rest) else none
  | '-' :: rest =>
    if !rest.isEmpty && rest.all Char.isDigit then some (-(natOfDigits rest : Int)) else none
  | l =>
    if !l.isEmpty && l.all Char.isDigit then some (natOfDigits l) else none

/-- `TaskMap._parse_task_ids` on the cell rendered as text (the `None` /
`NaN` cell, which yields `[]` before this point, is not modelled). -/
def parse_task_ids (value : String) : List Int :=
  let s := value.pyStrip
  if s.toList.contains '.' then
    let p := splitDot s.toList
    let left := (String.mk p.1).pyStrip
    let right := String.mk (rstripZeros ((String.mk p.2).pyStrip.toList))
    let ids : List Int :=
      (if allDigits left then [(natOfDigits left.toList : Int)] else []) ++
      (if allDigits right then [(natOfDigits right.toList : Int)] else [])
    dedupFirst ids
  else
    match intFloatStr? s with
    | some n => [n]
    | none => []

/-- `TaskMap.task_ids_for_unit`: trimmed exact lookup in the loaded map. -/
def task_ids_for_unit (m : List (String × List Int)) (unit : String) : Option (List Int) :=
  match m.find? (fun p => p.1 = unit.pyStrip) with
  | some p => some p.2
  | none => none

/-- A Python `datetime.now()` as far as the assistance rule reads it:
`weekday()` (0 = Monday … 6 = Sunday) and the time of day in microseconds
since midnight (`datetime.time` compares at microsecond resolution). -/
structure PyNow where
  weekday : Nat
  todUs : Nat
deriving DecidableEq, Repr

/-- `time(7, 0)` in microseconds since midnight. -/
def sevenAm : Nat := 7 * 3600 * 1000000

/-- `time(17, 0)` in microseconds since midnight. -/
def fivePm : Nat := 17 * 3600 * 1000000

/-- The unit-lookup loop of `select_task_ids_for_units`: concatenated found
ids (first component) and `missing_units` (second component). -/
def selectedRaw (m : List (String × List Int)) (units : List String) : List Int × List String :=
  units.foldl
    (fun acc u =>
      match task_ids_for_unit m u with
      | none => (acc.1, acc.2 ++ [u])
      | some ids => (acc.1 ++ ids, acc.2))
    ([], [])

/-- The de-duplicated selected task ids. -/
def resolvedIds (m : List (String × List Int)) (units : List String) : List Int :=
  dedupFirst (selectedRaw m units).1

/-- The assistance unit chosen when escalation triggers:
`"Ass.Dag"` on Monday–Friday between 07:00 (inclusive) and 17:00
(exclusive), `"Ass.Nat"` otherwise. -/
def assistanceTarget (now : PyNow) : String :=
  if now.weekday ≤ 4 && (sevenAm ≤ now.todUs && now.todUs < fivePm)
  then "Ass.Dag" else "Ass.Nat"

/-- Append the assistance ids that are not already present (the
`for tid in ass_ids: if tid not in seen: ...` loop). -/
def appendNew (ids : List Int) (assIds : List Int) : List Int :=
  assIds.foldl (fun acc tid => if tid ∈ acc then acc else acc ++ [tid]) ids

/-- `TaskMap.select_task_ids_for_units`. -/
def select_task_ids_for_units
    (m : List (String × List Int)) (units : List String) (now : PyNow)
    (auto_add_assistance : Bool) : TaskSelectionResult :=
  let task_ids := resolvedIds m units
  let missing := (selectedRaw m units).2
  if auto_add_assistance && !task_ids.isEmpty then
    if task_ids.any (fun tid => !(tid ∈ ASSIST_EXCLUDE_TASK_IDS : Bool)) then
      let assistance_unit := assistanceTarget now
      let ass_ids := (task_ids_for_unit m assistance_unit).getD []
      if !ass_ids.isEmpty then
        { task_ids := appendNew task_ids ass_ids, missing_units := missing,
          assistance_added := true, assistance_unit := some assistance_unit }
      else
        { task_ids := task_ids, missing_units := missing,
          assistance_added := false, assistance_unit := some assistance_unit }
    else
      { task_ids := task_ids, missing_units := missing,
        assistance_added := false, assistance_unit := none }
  else
    { task_ids := task_ids, missing_units := missing,
      assistance_added := false, assistance_unit := none }

/-! ## Alarm-System (ABA) Directory (`data_sources/aba.py`) -/

/-- One raw row of the ABA Excel sheet (the required columns). -/
structure AbaRawRow where
  doa_no : String
  adresse : String
  postnr_bynavn : String
  navn : String
  primaer : String
  sekundaer : String
  status : String
deriving DecidableEq, Repr

/-- `AbaSite`. -/
structure AbaSite where
  doa_no : String
  name : String
  address_display : String
  address_norm : String
  primary_response : String
  secondary_response : String
  status : String
deriving DecidableEq, Repr

/-- One row of the loaded dataframe, with the derived columns. -/
structure AbaRow where
  doa_no : String
  adresse : String
  postnr_bynavn : String
  navn : String
  primaer : String
  sekundaer : String
  status : String
  address_display : String
  address_norm : String
  key_basic : String
  score : Int
deriving DecidableEq, Repr

/-- `\bdrift\b` found in a lowercased character list: an occurrence of
`drift` with no word character on either side (the strict status filter of
`AbaDirectory.load`). -/
def hasWordDrift (l : List Char) : Bool :=
  let startsDrift : List Char → Bool := fun l =>
    match l with
    | 'd' :: 'r' :: 'i' :: 'f' :: 't' :: rest =>
      match rest with
      | [] => true
      | c :: _ => !isWordChar c
    | _ => false
  let rec go : Option Char → List Char → Bool
    | prev, [] =>
      let _ := prev
      false
    | prev, c :: cs =>
      ((match prev with
        | none => true
        | some p => !isWordChar p) && startsDrift (c :: cs)) || go (some c) cs
  go none l

/-- `_aba_row_score` of `AbaDirectory.load` (the fields are already
trimmed at this point; `status` is passed lowercased). -/
def aba_row_score (prim sec statusLower navn : String) : Int :=
  (if prim ≠ "" ∧ prim ≠ "-" ∧ prim ≠ "*FEJL*" then 100
   else if prim = "*FEJL*" then -100 else 0) +
  (if sec ≠ "" ∧ sec ≠ "-" ∧ sec ≠ "*FEJL*" then 10 else 0) +
  (if containsSeq "drift".toList statusLower.toList ||
      containsSeq "aktiv".toList statusLower.toList ||
      containsSeq "i drift".toList statusLower.toList ||
      containsSeq "in service".toList statusLower.toList then 5 else 0) +
  (if navn ≠ "" then 1 else 0)

/-- The column-derivation part of `AbaDirectory.load` applied to one
surviving row. -/
def enrichAbaRow (r : AbaRawRow) : AbaRow :=
  let adr := r.adresse.pyStrip
  let pn := r.postnr_bynavn.pyStrip
  let navn := r.navn.pyStrip
  let prim := r.primaer.pyStrip
  let sec := r.sekundaer.pyStrip
  let st := r.status.pyStrip
  let disp := adr ++ ", " ++ pn
  { doa_no := r.doa_no, adresse := adr, postnr_bynavn := pn, navn := navn,
    primaer := prim, sekundaer := sec, status := st,
    address_display := disp,
    address_norm := normalize_text disp,
    key_basic := normalize_text (adr ++ " " ++ extract4 pn.toList),
    score := aba_row_score prim sec (lowerStr st) navn }

/-- The sort relation of
`sort_values(["key_basic", "_aba_score"], ascending=[True, False])`
(a stable multi-column sort: key ascending, score descending, ties in
original row order). -/
def abaSortRel (a b : AbaRow) : Prop :=
  charListLt a.key_basic.toList b.key_basic.toList = true ∨
  (a.key_basic = b.key_basic ∧ b.score ≤ a.score)

instance : DecidableRel abaSortRel := fun a b => by
  unfold abaSortRel; infer_instance

/-- `drop_duplicates(subset=["key_basic"], keep="first")` (the accumulator
holds the keys already seen). -/
def dedupByKeyAux : List String → List AbaRow → List AbaRow
  | _, [] => []
  | seen, r :: rs =>
    if r.key_basic ∈ seen then dedupByKeyAux seen rs
    else r :: dedupByKeyAux (r.key_basic :: seen) rs

def dedupByKey (l : List AbaRow) : List AbaRow :=
  dedupByKeyAux [] l

/-- `AbaDirectory.load` on the raw rows: keep only rows whose (trimmed,
lowercased) status contains the whole word `drift`, derive columns and
score, then keep the best-scoring row per `key_basic` (ties by original
row order); the surviving dataframe is ordered by `key_basic`. -/
def abaLoad (rows : List AbaRawRow) : List AbaRow :=
  let kept := rows.filter (fun r => hasWordDrift (lowerStr r.status.pyStrip).toList)
  dedupByKey (List.insertionSort abaSortRel (kept.map enrichAbaRow))

/-- The row that `AbaDirectory.match_address` selects
(`hit = df[df["address_norm"] == key]; hit.iloc[0]`), before the
error-sentinel guard. -/
def selAddress (dir : List AbaRow) (address_display : String) : Option AbaRow :=
  (dir.filter (fun r => r.address_norm = normalize_text address_display)).head?

/-- `AbaSite` built by `match_address` from the winning row. -/
def mkSiteAddr (r : AbaRow) : AbaSite :=
  { doa_no := r.doa_no, name := r.navn, address_display := r.address_display,
    address_norm := r.address_norm, primary_response := r.primaer,
    secondary_response := r.sekundaer, status := r.status }

/-- `AbaDirectory.match_address`. -/
def match_address (dir : List AbaRow) (address_display : String) : Option AbaSite :=
  match selAddress dir address_display with
  | none => none
  | some r => if r.primaer.pyStrip = "*FEJL*" then none else some (mkSiteAddr r)

/-- `iloc[0]` after the conditional
`sort_values("_aba_score", ascending=False)` of `match_components`: the
highest-scoring row when more than one candidate survives (ties modelled
in original order), otherwise the first row. -/
def pickTop (l : List AbaRow) : Option AbaRow :=
  if 1 < l.length
  then (List.insertionSort (fun a b => b.score ≤ a.score) l).head?
  else l.head?

/-- The row that `AbaDirectory.match_components` selects through its exact
and containment-fallback stages, before the error-sentinel guard. -/
def selComponents (dir : List AbaRow) (street house_no house_letter postcode : String) :
    Option AbaRow :=
  let hn := house_no.pyStrip
  let hl := house_letter.pyStrip
  let pc := postcode.pyStrip
  let key_with_letter := normalize_text (street ++ " " ++ hn ++ " " ++ hl ++ " " ++ pc)
  let key_no_letter := normalize_text (street ++ " " ++ hn ++ " " ++ pc)
  let h1 := dir.filter (fun r => r.key_basic = key_with_letter)
  let h2 := if h1.isEmpty then dir.filter (fun r => r.key_basic = key_no_letter) else h1
  let h3 :=
    if h2.isEmpty
    then dir.filter (fun r => containsSeq key_no_letter.toList r.key_basic.toList)
    else h2
  pickTop h3

/-- `AbaSite` built by `match_components` (note: its `address_norm` field
is set to the row's `key_basic`, unlike `match_address`). -/
def mkSiteComp (r : AbaRow) : AbaSite :=
  { doa_no := r.doa_no, name := r.navn, address_display := r.address_display,
    address_norm := r.key_basic, primary_response := r.primaer,
    secondary_response := r.sekundaer, status := r.status }

/-- `AbaDirectory.match_components`. -/
def match_components (dir : List AbaRow) (street house_no house_letter postcode : String) :
    Option AbaSite :=
  match selComponents dir street house_no house_letter postcode with
  | none => none
  | some r => if r.primaer.pyStrip = "*FEJL*" then none else some (mkSiteComp r)

/-! ## Address Directory (`data_sources/addresses.py`) -/

/-- `KnownAddress` (one row of the loaded address dataframe, as the
search functions read it). -/
structure KnownAddress where
  display : String
  norm_key : String
  district_no : String
  street : String
  house_no : String
  house_letter : String
  postcode : String
  city : String
deriving DecidableEq, Repr

/-- The street/house-number base filter of
`AddressDirectory.find_by_components`. -/
def findBaseHits (dir : List KnownAddress) (street house_no : String) : List KnownAddress :=
  dir.filter (fun r =>
    normalize_text r.street = normalize_text street ∧
    normalize_text r.house_no = normalize_text house_no)

/-- The optional `house_extra` narrowing of `find_by_components`: when the
normalized extra is non-empty, keep the rows whose normalized display
contains it — unless that empties the result, in which case keep the
unnarrowed rows. -/
def narrowedHits (dir : List KnownAddress) (street house_no house_extra : String) :
    List KnownAddress :=
  let extra_q := normalize_text house_extra
  let hit := findBaseHits dir street house_no
  if extra_q ≠ "" then
    let hit2 := hit.filter (fun r =>
      containsSeq extra_q.toList (normalize_text r.display).toList)
    if hit2.isEmpty then hit else hit2
  else hit

/-- `AddressDirectory.find_by_components`: normalized equality on street
and house number; optional narrowing by the extra component; sort by the
raw house-letter column (`sort_values(by=["Hus bogstav"])`, stable ties
in directory order); truncate to `limit`. -/
def find_by_components (dir : List KnownAddress) (street house_no house_extra : String)
    (limit : Nat) : List KnownAddress :=
  (List.insertionSort
    (fun a b => charListLe a.house_letter.toList b.house_letter.toList = true)
    (narrowedHits dir street house_no house_extra)).take limit

/-! ## Incident Matrix (`data_sources/incidents.py`) -/

/-- `IncidentProfile`. -/
structure IncidentProfile where
  district_no : String
  incident_code : String
  incident_label : String
  units : List String
deriving DecidableEq, Repr

/-- One raw row of a district sheet as the loader reads it: the incident
code cell and label cell rendered as text, and the unit columns (from the
fixed offset onward) as `(column name, cell)` pairs with `none` for a NaN
cell. -/
structure IncRow where
  code : String
  label : String
  unitCells : List (String × Option String)
deriving DecidableEq, Repr

/-- Lookup in a Python dict built by assignment (first matching key). -/
def dictLookup {α : Type} (k : String) : List (String × α) → Option α
  | [] => none
  | p :: rest => if p.1 = k then some p.2 else dictLookup k rest

/-- Python dict assignment `d[k] = v`: replace in place if the key exists,
else append. -/
def dictInsert {α : Type} (m : List (String × α)) (k : String) (v : α) :
    List (String × α) :=
  if m.any (fun p => p.1 = k) then m.map (fun p => if p.1 = k then (k, v) else p)
  else m ++ [(k, v)]

/-- The `IncidentProfile` built from one sheet row. -/
def mkProfile (district_no : String) (r : IncRow) : IncidentProfile :=
  { district_no := district_no,
    incident_code := r.code.pyStrip,
    incident_label := r.label.pyStrip,
    units := r.unitCells.filterMap (fun uc =>
      match uc.2 with
      | some v => if upperStr v.pyStrip = "X" then some uc.1.pyStrip else none
      | none => none) }

/-- A row is skipped when its trimmed code is empty or reads `nan`. -/
def validIncRow (r : IncRow) : Bool :=
  !(r.code.pyStrip = "" || lowerStr (r.code.pyStrip) = "nan")

/-- The per-sheet loop of `IncidentMatrix.load`: build the district map by
dict assignment keyed on the trimmed incident code. -/
def loadSheet (district_no : String) (rows : List IncRow) :
    List (String × IncidentProfile) :=
  rows.foldl
    (fun acc r =>
      if validIncRow r then dictInsert acc (r.code.pyStrip) (mkProfile district_no r)
      else acc)
    []

/-- `IncidentMatrix.load` over the workbook's `(sheet name, rows)` list. -/
def loadMatrix (sheets : List (String × List IncRow)) :
    List (String × List (String × IncidentProfile)) :=
  sheets.foldl (fun acc s => dictInsert acc s.1.pyStrip (loadSheet s.1.pyStrip s.2)) []

/-- `IncidentMatrix.get_profile`. -/
def get_profile (mx : List (String × List (String × IncidentProfile)))
    (district_no incident_code : String) : Option IncidentProfile :=
  match dictLookup district_no.pyStrip mx with
  | none => none
  | some dm => dictLookup incident_code.pyStrip dm

/-! ## ABA override rule (`rules/aba_rules.py`) -/

/-- `AbaRuleResult`. -/
structure AbaRuleResult where
  applied : Bool
  reason : String
  units : List String
deriving DecidableEq, Repr

/-- Python `s.split(",")` over the character list. -/
def splitComma : List Char → List (List Char)
  | [] => [[]]
  | c :: cs =>
    match splitComma cs with
    | [] => [[c]]
    | g :: gs => if c = ',' then [] :: g :: gs else (c :: g) :: gs

/-- `_parse_units`: comma-split, trimmed, non-empty tokens. -/
def parse_units (units_str : String) : List String :=
  if units_str = "" then []
  else (((splitComma units_str.toList).map
    (fun g => (String.mk g).pyStrip)).filter (fun p => p ≠ ""))

/-- `units_from_aba_site`. -/
def units_from_aba_site (aba_site : AbaSite) (use_secondary : Bool) : List String :=
  parse_units (if use_secondary then aba_site.secondary_response
               else aba_site.primary_response)

/-- `apply_aba_rules_case_sensitive`. -/
def apply_aba_rules_case_sensitive (incident_code : String)
    (aba_site : Option AbaSite) (base_units : List String) (use_secondary : Bool) :
    AbaRuleResult :=
  let code := incident_code.pyStrip
  if code ≠ "BAAl" then
    { applied := false, reason := "Not BAAl; ABA list not used.", units := base_units }
  else
    match aba_site with
    | none =>
      { applied := false, reason := "BAAl but address not found in ABA list.",
        units := [] }
    | some site =>
      let aba_units := units_from_aba_site site use_secondary
      if aba_units = [] then
        { applied := false,
          reason := "BAAl + ABA match (" ++ site.doa_no ++ " / " ++ site.name ++
            ") but response list empty.",
          units := [] }
      else
        { applied := true,
          reason := "BAAl + ABA match (" ++ site.doa_no ++ " / " ++ site.name ++
            ") -> " ++ (if use_secondary then "Sekundær" else "Primær") ++
            " units used from ABA list.",
          units := aba_units }

/-! ## Callout Resolver (`rules/resolve_callout.py`) -/

/-- `ResolvedCallout`. -/
structure ResolvedCallout where
  address : KnownAddress
  district_no : String
  incident_code : String
  incident_label : String
  aba_site : Option AbaSite
  base_units : List String
  final_units : List String
  aba_rule : AbaRuleResult
deriving DecidableEq, Repr

/-- `CalloutResolver.resolve`; a raised `ValueError` is `Except.error` with
the message. -/
def resolve (mx : List (String × List (String × IncidentProfile)))
    (aba : List AbaRow) (selected_address : KnownAddress)
    (incident_code : String) (use_secondary_aba : Bool) :
    Except String ResolvedCallout :=
  let district_no := selected_address.district_no
  let code := incident_code.pyStrip
  let aba_site := match_components aba selected_address.street
    selected_address.house_no selected_address.house_letter selected_address.postcode
  let base? : Except String (String × List String) :=
    if code ≠ "BAAl" then
      match get_profile mx district_no code with
      | none => Except.error ("Incident '" ++ code ++ "' not found for district '" ++
          district_no ++ "'.")
      | some profile => Except.ok (profile.incident_label, profile.units)
    else Except.ok ("Brandalarm (ABA)", [])
  match base? with
  | Except.error e => Except.error e
  | Except.ok lb =>
    let aba_rule := apply_aba_rules_case_sensitive code aba_site lb.2 use_secondary_aba
    if code = "BAAl" ∧ aba_site = none then
      Except.error
        "BAAl selected but address is not found in ABA list (no response can be derived)."
    else
      Except.ok
        { address := selected_address, district_no := district_no,
          incident_code := code, incident_label := lb.1, aba_site := aba_site,
          base_units := lb.2,
          final_units := if aba_rule.applied || code = "BAAl" then aba_rule.units
                         else lb.2,
          aba_rule := aba_rule }

/-! ## Alert Text Composer (`rules/text_composer.py`) -/

/-- `CalloutTextInput`. -/
structure CalloutTextInput where
  incident_code : String
  incident_text : String
  address_display : String
  city : String
  priority : String
  dispatch_comments : Option String
  aba_site_name : Option String
deriving DecidableEq, Repr

/-- Python `s.replace(",", "")`. -/
def removeCommas (s : String) : String :=
  String.mk (s.toList.filter (fun c => c ≠ ','))

/-- `_format_address`: the trimmed display with commas removed, or the
trimmed city when the display trims to empty. -/
def format_address (address_display city : String) : String :=
  let s := address_display.pyStrip
  if s ≠ "" then removeCommas s else city.pyStrip

/-- `_units_to_str`: trimmed unit tokens joined by single spaces, skipping
tokens that are empty or whitespace-only. -/
def units_to_str (units : List String) : String :=
  " ".intercalate ((units.filter (fun u => u ≠ "" && u.pyStrip ≠ "")).map String.pyStrip)

/-- `compose_alert_text`. -/
def compose_alert_text (inp : CalloutTextInput) (units : List String) : String :=
  let address_part := format_address inp.address_display inp.city
  let units_part := units_to_str units
  let comments0 := (inp.dispatch_comments.getD "").pyStrip
  let comments := if comments0 ≠ "" then "# " ++ comments0 else comments0
  let site := (inp.aba_site_name.getD "").pyStrip
  if inp.incident_code = "BAAl" then
    let parts := ["ABA", address_part, site, inp.priority, inp.incident_text] ++
      (if comments ≠ "" then [comments] else []) ++ ["-", units_part]
    " ".intercalate (parts.filter (fun p => p ≠ "" && p.pyStrip ≠ ""))
  else
    let parts := [inp.incident_text, address_part, inp.priority] ++
      (if comments ≠ "" then [comments] else []) ++ ["-", units_part]
    " ".intercalate (parts.filter (fun p => p ≠ "" && p.pyStrip ≠ ""))

/-! ## Claim-side definitions

These definitions follow the words of spec claims (not the source); each is
compared against the corresponding source-derived definition above. -/

/-- C6's general clause, as the claim words it: split the cell text on the
first point, strip trailing zeros from the right part, each side yields an
id only if it is entirely digits, de-duplicate keeping first-seen order.
(No whitespace stripping of the two parts.) -/
def parseTaskIdsDotClaim (s : String) : List Int :=
  let p := splitDot s.toList
  let left := String.mk p.1
  let right := String.mk (rstripZeros p.2)
  dedupFirst
    ((if allDigits left then [(natOfDigits left.toList : Int)] else []) ++
     (if allDigits right then [(natOfDigits right.toList : Int)] else []))

/-- C6's general clause as amended: the code additionally strips
whitespace from each part (the right part before removing its trailing
zeros). -/
def parseTaskIdsDotAmended (s : String) : List Int :=
  let p := splitDot s.toList
  let left := (String.mk p.1).pyStrip
  let right := String.mk (rstripZeros ((String.mk p.2).pyStrip.toList))
  dedupFirst
    ((if allDigits left then [(natOfDigits left.toList : Int)] else []) ++
     (if allDigits right then [(natOfDigits right.toList : Int)] else []))

/-- C7 as the claim words it: exact normalized-street and house-number
match, then — when `extra` is non-empty — restriction to rows whose
house-letter field equals `extra` case-insensitively, in directory order,
truncated to `limit`. -/
def findByComponentsClaimC7 (dir : List KnownAddress)
    (street house_no house_extra : String) (limit : Nat) : List KnownAddress :=
  let base := dir.filter (fun r =>
    normalize_text r.street = normalize_text street ∧
    normalize_text r.house_no = normalize_text house_no)
  let narrowed :=
    if house_extra ≠ ""
    then base.filter (fun r => lowerStr r.house_letter = lowerStr house_extra)
    else base
  narrowed.take limit

/-- C8 as the claim words it: single-space join of the non-empty parts in
the fixed order, commas removed from the address display, comments
prefixed with `"# "` when present, units joined by single spaces skipping
empty tokens. -/
def composeAbaClaimC8 (inp : CalloutTextInput) (units : List String) : String :=
  let addr := removeCommas inp.address_display
  let unitsPart := " ".intercalate (units.filter (fun u => u ≠ ""))
  let parts := ["ABA", addr, inp.aba_site_name.getD "", inp.priority,
      inp.incident_text] ++
    (match inp.dispatch_comments with
     | some c => ["# " ++ c]
     | none => []) ++ ["-", unitsPart]
  " ".intercalate (parts.filter (fun p => p ≠ ""))

/-- C8 as amended: the address part is the stripped display with commas
removed — or the stripped city when the display strips to empty —, the
site name and comments are stripped (comments kept only when non-blank),
unit tokens are stripped and whitespace-only ones skipped, and every part
that is empty or whitespace-only is dropped. -/
def composeAbaAmendedC8 (inp : CalloutTextInput) (units : List String) : String :=
  let addr :=
    if inp.address_display.pyStrip = "" then inp.city.pyStrip
    else removeCommas inp.address_display.pyStrip
  let unitsPart :=
    " ".intercalate ((units.filter (fun u => u.pyStrip ≠ "")).map String.pyStrip)
  let comments :=
    match inp.dispatch_comments with
    | some c => if c.pyStrip ≠ "" then ["# " ++ c.pyStrip] else []
    | none => []
  let parts := ["ABA", addr, (inp.aba_site_name.getD "").pyStrip, inp.priority,
      inp.incident_text] ++ comments ++ ["-", unitsPart]
  " ".intercalate (parts.filter (fun p => p.pyStrip ≠ ""))

/-! ## Concrete fixtures for counterexamples and witnesses -/

/-- An in-service ABA row whose primary response is the error sentinel. -/
def rowFejl : AbaRawRow :=
  { doa_no := "11", adresse := "MAPLEVEJ 10", postnr_bynavn := "4000 ROSKILDE",
    navn := "", primaer := "*FEJL*", sekundaer := "", status := "Drift" }

/-- An in-service ABA row for the same address with a usable primary
response. -/
def rowGood : AbaRawRow :=
  { doa_no := "22", adresse := "MAPLEVEJ 10", postnr_bynavn := "4000 ROSKILDE",
    navn := "SITE", primaer := "ROIL1,ROM1,ROV1", sekundaer := "",
    status := "I drift" }

/-- An in-service ABA row whose primary response is empty. -/
def rowEmptyResp : AbaRawRow :=
  { doa_no := "33", adresse := "BIRKEVEJ 5", postnr_bynavn := "4000 ROSKILDE",
    navn := "TOM", primaer := "", sekundaer := "", status := "Drift" }

/-- A loaded ABA row sitting directly in a directory (for the C5
witness): its primary response is the error sentinel. -/
def loadedFejlRow : AbaRow :=
  { doa_no := "44", adresse := "X 1", postnr_bynavn := "4000",
    navn := "N", primaer := "*FEJL*", sekundaer := "", status := "Drift",
    address_display := "X 1, 4000", address_norm := "X 1 4000",
    key_basic := "X 1 4000", score := -94 }

/-- The known address used by the resolver fixtures. -/
def addrMaple : KnownAddress :=
  { display := "MAPLEVEJ 10, 4000 ROSKILDE", norm_key := "MAPLEVEJ 10 4000",
    district_no := "1", street := "MAPLEVEJ", house_no := "10",
    house_letter := "", postcode := "4000", city := "ROSKILDE" }

/-- The known address of `rowEmptyResp`. -/
def addrBirke : KnownAddress :=
  { display := "BIRKEVEJ 5, 4000 ROSKILDE", norm_key := "BIRKEVEJ 5 4000",
    district_no := "1", street := "BIRKEVEJ", house_no := "5",
    house_letter := "", postcode := "4000", city := "ROSKILDE" }

/-- An empty incident matrix (the alarm-system resolver path never reads
it). -/
def emptyMatrix : List (String × List (String × IncidentProfile)) := []

/-- Address-directory rows sharing street and house number but with
house letters out of alphabetical order. -/
def addrRowB : KnownAddress :=
  { display := "PILEVEJ 1 B, 4000 ROSKILDE", norm_key := "PILEVEJ 1 B 4000",
    district_no := "1", street := "PILEVEJ", house_no := "1",
    house_letter := "B", postcode := "4000", city := "ROSKILDE" }

def addrRowA : KnownAddress :=
  { display := "PILEVEJ 1 A, 4000 ROSKILDE", norm_key := "PILEVEJ 1 A 4000",
    district_no := "1", street := "PILEVEJ", house_no := "1",
    house_letter := "A", postcode := "4000", city := "ROSKILDE" }

/-- Composer input whose address display is empty (the city fallback
case). -/
def composeInputC8 : CalloutTextInput :=
  { incident_code := "BAAl", incident_text := "BRANDALARM",
    address_display := "", city := "City", priority := "P1",
    dispatch_comments := none, aba_site_name := some "Site" }

/-! ## Helper lemmas -/

theorem pyStrip_eq (s : String) :
    s.pyStrip = String.mk (List.rdropWhile Char.isWhitespace
      (List.dropWhile Char.isWhitespace s.toList)) := rfl

/-- Python `strip` is idempotent. -/
theorem pyStrip_idem (s : String) : s.pyStrip.pyStrip = s.pyStrip := by
  rw [pyStrip_eq, pyStrip_eq]
  congr 1
  show List.rdropWhile _ (List.dropWhile _
    (List.rdropWhile Char.isWhitespace
      (List.dropWhile Char.isWhitespace s.toList))) = _
  set X := List.dropWhile Char.isWhitespace s.toList with hX
  have hY : List.dropWhile Char.isWhitespace (List.rdropWhile Char.isWhitespace X) =
      List.rdropWhile Char.isWhitespace X := by
    rw [List.dropWhile_eq_self_iff]
    intro hl
    have hpre : List.rdropWhile Char.isWhitespace X <+: X :=
      List.rdropWhile_prefix _ _
    have hg := hpre.getElem (n := 0) hl
    have hXself : List.dropWhile Char.isWhitespace X = X :=
      List.dropWhile_idempotent _ _
    have h0 : 0 < X.length := lt_of_lt_of_le hl hpre.length_le
    have := (List.dropWhile_eq_self_iff).mp hXself h0
    simpa [List.get_eq_getElem, hg] using this
  rw [hY, List.rdropWhile_idempotent]

/-- A stripped-nonempty string is nonempty. -/
theorem ne_empty_of_pyStrip_ne {s : String} (h : s.pyStrip ≠ "") : s ≠ "" := by
  intro he
  exact h (by rw [he]; rfl)

theorem charListLt_irrefl (l : List Char) : charListLt l l = false := by
  induction l with
  | nil => rfl
  | cons a as ih => simp [charListLt, ih]

theorem charListLe_total (a b : List Char) :
    charListLe a b = true ∨ charListLe b a = true := by
  induction a generalizing b with
  | nil => left; rfl
  | cons x xs ih =>
    cases b with
    | nil => right; rfl
    | cons y ys =>
      by_cases h1 : x.toNat < y.toNat
      · left; simp [charListLe, h1]
      · by_cases h2 : y.toNat < x.toNat
        · right; simp [charListLe, h2, h1]
        · rcases ih ys with h | h
          · left; simp [charListLe, h1, h2, h]
          · right; simp [charListLe, h1, h2, h]

theorem charListLe_trans {a b c : List Char}
    (hab : charListLe a b = true) (hbc : charListLe b c = true) :
    charListLe a c = true := by
  induction a generalizing b c with
  | nil => rfl
  | cons x xs ih =>
    cases b with
    | nil => simp [charListLe] at hab
    | cons y ys =>
      cases c with
      | nil => simp [charListLe] at hbc
      | cons z zs =>
        simp only [charListLe] at hab hbc ⊢
        by_cases h1 : x.toNat < y.toNat
        · by_cases h2 : y.toNat < z.toNat
          · have hlt : x.toNat < z.toNat := Nat.lt_trans h1 h2
            simp [hlt]
          · by_cases h3 : z.toNat < y.toNat
            · simp [h2, h3] at hbc
            · have hyz : y.toNat = z.toNat :=
                Nat.le_antisymm (Nat.le_of_not_lt h3) (Nat.le_of_not_lt h2)
            
              have hlt : x.toNat < z.toNat := hyz ▸ h1
              simp [hlt]
        · by_cases h2 : y.toNat < x.toNat
          · simp [h1, h2] at hab
          · have hxy : x.toNat = y.toNat :=
              Nat.le_antisymm (Nat.le_of_not_lt h2) (Nat.le_of_not_lt h1)
            have hab' : charListLe xs ys = true := by simpa [h1, h2] using hab
            by_cases h3 : y.toNat < z.toNat
            · have hlt : x.toNat < z.toNat := hxy ▸ h3
              simp [hlt]
            · by_cases h4 : z.toNat < y.toNat
              · simp [h3, h4] at hbc
              · have hbc' : charListLe ys zs = true := by simpa [h3, h4] using hbc
                have h5 : ¬ x.toNat < z.toNat := by omega
                have h6 : ¬ z.toNat < x.toNat := by omega
                simpa [h5, h6] using ih hab' hbc' 

/-- A row whose primary response is the error sentinel scores at most
`-84`. -/
theorem aba_row_score_fejl_le (sec st navn : String) :
    aba_row_score "*FEJL*" sec st navn ≤ -84 := by
  unfold aba_row_score
  split_ifs <;> simp_all

/-- A row with a usable primary response scores at least `100`. -/
theorem aba_row_score_usable_ge {prim : String} (sec st navn : String)
    (h1 : prim ≠ "") (h2 : prim ≠ "-") (h3 : prim ≠ "*FEJL*") :
    100 ≤ aba_row_score prim sec st navn := by
  unfold aba_row_score
  rw [if_pos ⟨h1, h2, h3⟩]
  split_ifs <;> omega

/-- Replacing entries of a different key leaves a lookup unchanged. -/
theorem dictLookup_map_replace_ne {α : Type} (m : List (String × α)) (k k' : String)
    (v : α) (hne : k' ≠ k) :
    dictLookup k' (m.map (fun p => if p.1 = k then (k, v) else p)) =
      dictLookup k' m := by
  induction m with
  | nil => rfl
  | cons p rest ih =>
    by_cases hp : p.1 = k
    · simp only [List.map_cons, if_pos hp, dictLookup]
      rw [if_neg (fun he : k = k' => hne he.symm),
        if_neg (fun he : p.1 = k' => hne (hp.symm.trans he).symm)]
      exact ih
    · simp only [List.map_cons, if_neg hp, dictLookup]
      by_cases hk : p.1 = k'
      · rw [if_pos hk, if_pos hk]
      · rw [if_neg hk, if_neg hk]
        exact ih

/-- A key that occurs in the map is found after the in-place replacement. -/
theorem dictLookup_map_replace_self {α : Type} (m : List (String × α)) (k : String)
    (v : α) (hany : m.any (fun p => p.1 = k) = true) :
    dictLookup k (m.map (fun p => if p.1 = k then (k, v) else p)) = some v := by
  induction m with
  | nil => simp at hany
  | cons p rest ih =>
    by_cases hp : p.1 = k
    · simp [List.map_cons, if_pos hp, dictLookup]
    · simp only [List.map_cons, if_neg hp, dictLookup, if_neg hp]
      apply ih
      rcases List.any_eq_true.mp hany with ⟨q, hq, hqk⟩
      rcases List.mem_cons.mp hq with rfl | hq2
      · exact absurd (of_decide_eq_true hqk) hp
      · exact List.any_eq_true.mpr ⟨q, hq2, hqk⟩

/-- Appending a fresh key: lookups of other keys pass through. -/
theorem dictLookup_append_single {α : Type} (m : List (String × α)) (k k' : String)
    (v : α) :
    dictLookup k' (m ++ [(k, v)]) =
      match dictLookup k' m with
      | some w => some w
      | none => if k = k' then some v else none := by
  induction m with
  | nil =>
    simp only [List.nil_append, dictLookup]
  | cons p rest ih =>
    simp only [List.cons_append, dictLookup]
    by_cases hk : p.1 = k'
    · rw [if_pos hk, if_pos hk]
    · rw [if_neg hk, if_neg hk]
      exact ih

/-- Looking a key up after a Python dict assignment. -/
theorem dictLookup_dictInsert {α : Type} (m : List (String × α)) (k k' : String)
    (v : α) :
    dictLookup k' (dictInsert m k v) =
      if k' = k then some v else dictLookup k' m := by
  unfold dictInsert
  by_cases hany : m.any (fun p => p.1 = k)
  · rw [if_pos hany]
    by_cases hk : k' = k
    · rw [if_pos hk, hk]
      exact dictLookup_map_replace_self m k v hany
    · rw [if_neg hk]
      exact dictLookup_map_replace_ne m k k' v hk
  · rw [if_neg hany, dictLookup_append_single]
    have hnone : ∀ {w}, dictLookup k m = some w → False := by
      intro w hw
      apply hany
      clear hany
      induction m with
      | nil => simp [dictLookup] at hw
      | cons p rest ih =>
        simp only [dictLookup] at hw
        by_cases hp : p.1 = k
        · exact List.any_eq_true.mpr ⟨p, List.mem_cons_self _ _, decide_eq_true hp⟩
        · rw [if_neg hp] at hw
          exact List.any_eq_true.mpr
            (by rcases List.any_eq_true.mp (ih hw) with ⟨q, hq, hqk⟩
                exact ⟨q, List.mem_cons_of_mem _ hq, hqk⟩)
    by_cases hk : k' = k
    · subst hk
      cases hw : dictLookup k' m with
      | some w => exact absurd hw (fun h => hnone h)
      | none => simp
    · cases hw : dictLookup k' m with
      | some w => simp [hk]
      | none =>
        simp only [if_neg hk]
        rw [if_neg (fun he : k = k' => hk he.symm)]

/-- Lookup over the district-sheet fold: the last valid row with the
looked-up (trimmed) code wins, and an untouched key falls through to the
accumulator. -/
theorem loadSheet_foldl_lookup (district_no : String) (rows : List IncRow)
    (m : List (String × IncidentProfile)) (c : String) :
    dictLookup c (rows.foldl
      (fun acc r =>
        if validIncRow r then dictInsert acc (r.code.pyStrip) (mkProfile district_no r)
        else acc) m) =
      match (rows.filter (fun r => validIncRow r && r.code.pyStrip = c)).getLast? with
      | some r => some (mkProfile district_no r)
      | none => dictLookup c m := by
  induction rows generalizing m with
  | nil => rfl
  | cons r rest ih =>
    simp only [List.foldl_cons]
    by_cases hv : validIncRow r
    · by_cases hc : r.code.pyStrip = c
      · rw [List.filter_cons_of_pos (by simp [hv, hc]), if_pos hv, ih]
        cases hlast : (rest.filter (fun r => validIncRow r && r.code.pyStrip = c)).getLast? with
        | some r2 =>
          have hcons : (r :: rest.filter
              (fun r => validIncRow r && r.code.pyStrip = c)).getLast? = some r2 := by
            cases hf : rest.filter (fun r => validIncRow r && r.code.pyStrip = c) with
            | nil => rw [hf] at hlast; simp at hlast
            | cons a l =>
              rw [hf] at hlast
              rw [List.getLast?_cons_cons]
              exact hlast
          simp only [hcons]
        | none =>
          cases hf : rest.filter (fun r => validIncRow r && r.code.pyStrip = c) with
          | cons a l => rw [hf] at hlast; simp [List.getLast?] at hlast
          | nil =>
            simp only [hf, List.getLast?_singleton]
            rw [dictLookup_dictInsert, if_pos hc.symm]
      · rw [List.filter_cons_of_neg (by simp [hc]), if_pos hv, ih]
        cases (rest.filter (fun r => validIncRow r && r.code.pyStrip = c)).getLast? with
        | some r2 => simp
        | none =>
          simp only
          rw [dictLookup_dictInsert, if_neg (fun he : c = r.code.pyStrip => hc he.symm)]
    · rw [List.filter_cons_of_neg (by simp [hv]), if_neg hv, ih]

/-- `assistanceTarget` phrased with propositional conditions. -/
theorem assistanceTarget_eq (now : PyNow) :
    assistanceTarget now =
      if now.weekday ≤ 4 ∧ (sevenAm ≤ now.todUs ∧ now.todUs < fivePm)
      then "Ass.Dag" else "Ass.Nat" := by
  unfold assistanceTarget
  by_cases h : now.weekday ≤ 4 ∧ (sevenAm ≤ now.todUs ∧ now.todUs < fivePm)
  · rw [if_pos h, if_pos (by simp [h.1, h.2.1, h.2.2])]
  · rw [if_neg h, if_neg (by simpa [Bool.and_eq_true, decide_eq_true_eq] using h)]

/-! ## Claim theorems -/

/-- C6 (amended): the task-id cell parser maps `"823"` to `[823]`,
`"823.0"` to `[823]`, `"3134.1268"` to `[3134, 1268]` and `""` to `[]`;
and on any cell text containing a decimal point it splits on the first
point, strips whitespace from both parts, strips trailing zeros from the
right part, turns each side into an id only if it is entirely digits, and
de-duplicates per cell preserving first-seen order. -/
theorem c6_parse_task_ids_amended :
    parse_task_ids "823" = [823] ∧ parse_task_ids "823.0" = [823] ∧
    parse_task_ids "3134.1268" = [3134, 1268] ∧ parse_task_ids "" = [] ∧
    ∀ s : String, s.pyStrip.toList.contains '.' = true →
      parse_task_ids s = parseTaskIdsDotAmended s.pyStrip := by
  refine ⟨rfl, rfl, rfl, rfl, ?_⟩
  intro s h
  unfold parse_task_ids parseTaskIdsDotAmended
  rw [if_pos h]

/-- C6 counterexample: on the dot-containing cell text `"12. 30"` the
parser yields `[12, 3]` (it strips whitespace from each part before the
digit test), while the claim's formula — no whitespace stripping — yields
`[12]`. -/
theorem c6_counterexample :
    parse_task_ids "12. 30" = [12, 3] ∧
    parseTaskIdsDotClaim "12. 30" = [12] ∧
    parse_task_ids "12. 30" ≠ parseTaskIdsDotClaim "12. 30" :=
  ⟨rfl, rfl, by decide⟩

/-- C6 witness: the general dot-branch clause instantiated at `"7.50"`. -/
theorem c6_witness :
    parse_task_ids "7.50" = parseTaskIdsDotAmended (String.pyStrip "7.50") :=
  c6_parse_task_ids_amended.2.2.2.2 "7.50" (by decide)

/-- C2 counterexample: map `{"U": [1]}` (1 is outside the exclusion set),
requested units `["U"]`, Wednesday 10:00, `autoAddAssistance`: escalation
triggers, the chosen assistance unit `"Ass.Dag"` has no mapping, nothing
is added and `assistanceAdded` stays false — yet `assistanceUnit` IS set
to `"Ass.Dag"`, contradicting the claim that it is left null. -/
theorem c2_counterexample :
    select_task_ids_for_units [("U", [1])] ["U"] ⟨2, 36000000000⟩ true =
      { task_ids := [1], missing_units := [], assistance_added := false,
        assistance_unit := some "Ass.Dag" } ∧
    (some "Ass.Dag" : Option String) ≠ none :=
  ⟨by decide, by decide⟩

/-- C2 (amended): when escalation triggers (`autoAddAssistance`, non-empty
id list, some id outside the exclusion set) but the chosen assistance unit
has no mapping, the task ids are exactly the de-duplicated requested ids,
`assistanceAdded` is false, and `assistanceUnit` IS set to the chosen
assistance unit's name. -/
theorem c2_assistance_no_mapping_amended
    (m : List (String × List Int)) (units : List String) (now : PyNow)
    (h1 : resolvedIds m units ≠ [])
    (h2 : ∃ t ∈ resolvedIds m units, t ∉ ASSIST_EXCLUDE_TASK_IDS)
    (h3 : task_ids_for_unit m (assistanceTarget now) = none) :
    select_task_ids_for_units m units now true =
      { task_ids := resolvedIds m units, missing_units := (selectedRaw m units).2,
        assistance_added := false, assistance_unit := some (assistanceTarget now) } := by
  have h1' : (resolvedIds m units).isEmpty = false := List.isEmpty_eq_false.mpr h1
  have h2' : (resolvedIds m units).any
      (fun tid => !(tid ∈ ASSIST_EXCLUDE_TASK_IDS : Bool)) = true := by
    rcases h2 with ⟨t, ht, hnt⟩
    exact List.any_eq_true.mpr ⟨t, ht, by simp [hnt]⟩
  simp [select_task_ids_for_units, h1', h2', h3]

/-- C2 witness: the amended statement at the counterexample's input. -/
theorem c2_witness :
    select_task_ids_for_units [("U", [1])] ["U"] ⟨2, 36000000000⟩ true =
      { task_ids := resolvedIds [("U", [1])] ["U"],
        missing_units := (selectedRaw [("U", [1])] ["U"]).2,
        assistance_added := false,
        assistance_unit := some (assistanceTarget ⟨2, 36000000000⟩) } :=
  c2_assistance_no_mapping_amended [("U", [1])] ["U"] ⟨2, 36000000000⟩
    (by decide) ⟨1, by decide, by decide⟩ (by decide)

/-- C3: with `autoAddAssistance` and a non-empty resolved id list, no
escalation happens when every selected id lies in the exclusion set
`{823, 3134, 7040, 6509, 3176, 7035, 7036, 7037, 5474, 1268}`, whatever
the time; and when some id lies outside it, the escalation target is the
day-assistance unit exactly on Monday–Friday with local time in
[07:00, 17:00), the night-assistance unit otherwise. -/
theorem c3_assistance_escalation
    (m : List (String × List Int)) (units : List String) (now : PyNow)
    (h1 : resolvedIds m units ≠ []) :
    ((∀ t ∈ resolvedIds m units, t ∈ ASSIST_EXCLUDE_TASK_IDS) →
      select_task_ids_for_units m units now true =
        { task_ids := resolvedIds m units,
          missing_units := (selectedRaw m units).2,
          assistance_added := false, assistance_unit := none }) ∧
    ((∃ t ∈ resolvedIds m units, t ∉ ASSIST_EXCLUDE_TASK_IDS) →
      (select_task_ids_for_units m units now true).assistance_unit =
        some (if now.weekday ≤ 4 ∧ (sevenAm ≤ now.todUs ∧ now.todUs < fivePm)
              then "Ass.Dag" else "Ass.Nat")) := by
  have h1' : (resolvedIds m units).isEmpty = false := List.isEmpty_eq_false.mpr h1
  constructor
  · intro hall
    have hany : (resolvedIds m units).any
        (fun tid => !(tid ∈ ASSIST_EXCLUDE_TASK_IDS : Bool)) = false := by
      rw [List.any_eq_false]
      intro t ht
      simp [hall t ht]
    simp [select_task_ids_for_units, h1', hany]
  · intro h2
    have h2' : (resolvedIds m units).any
        (fun tid => !(tid ∈ ASSIST_EXCLUDE_TASK_IDS : Bool)) = true := by
      rcases h2 with ⟨t, ht, hnt⟩
      exact List.any_eq_true.mpr ⟨t, ht, by simp [hnt]⟩
    rw [← assistanceTarget_eq]
    simp only [select_task_ids_for_units, h1', h2']
    by_cases hass : ((task_ids_for_unit m (assistanceTarget now)).getD []).isEmpty
    · simp [hass]
    · simp [hass]

/-- C3 witness: a Wednesday-10:00 call with an id outside the exclusion
set escalates to the day-assistance unit (part two), instantiated
concretely. -/
theorem c3_witness :
    (select_task_ids_for_units [("U", [1])] ["U"] ⟨2, 36000000000⟩ true).assistance_unit =
      some (if (2 : Nat) ≤ 4 ∧ (sevenAm ≤ 36000000000 ∧ (36000000000 : Nat) < fivePm)
            then "Ass.Dag" else "Ass.Nat") :=
  (c3_assistance_escalation [("U", [1])] ["U"] ⟨2, 36000000000⟩ (by decide)).2
    ⟨1, by decide, by decide⟩

/-- C5: whenever the row selected by `match_address` or by
`match_components` (through any of its exact or containment-fallback
stages) has the error-sentinel primary response `"*FEJL*"`, the operation
returns `none` even though a row matched. -/
theorem c5_error_sentinel_guard :
    (∀ (dir : List AbaRow) (q : String) (r : AbaRow),
      selAddress dir q = some r → r.primaer.pyStrip = "*FEJL*" →
      match_address dir q = none) ∧
    (∀ (dir : List AbaRow) (street house_no house_letter postcode : String)
      (r : AbaRow),
      selComponents dir street house_no house_letter postcode = some r →
      r.primaer.pyStrip = "*FEJL*" →
      match_components dir street house_no house_letter postcode = none) := by
  constructor
  · intro dir q r hsel hf
    simp only [match_address, hsel, if_pos hf]
  · intro dir street hn hl pc r hsel hf
    simp only [match_components, hsel, if_pos hf]

/-- C5 witness: a one-row directory whose only row is an error-sentinel
row; both match operations return `none`. -/
theorem c5_witness :
    match_address [loadedFejlRow] "X 1, 4000" = none ∧
    match_components [loadedFejlRow] "X" "1" "" "4000" = none :=
  ⟨c5_error_sentinel_guard.1 [loadedFejlRow] "X 1, 4000" loadedFejlRow rfl rfl,
   c5_error_sentinel_guard.2 [loadedFejlRow] "X" "1" "" "4000" loadedFejlRow rfl rfl⟩

/-- C1 (amended): a resolve call whose trimmed incident code is `"BAAl"`,
on an address for which `match_components` finds an ABA site with primary
response `"ROIL1,ROM1,ROV1"`, with `useSecondaryAba = false`, returns a
`ResolvedCallout` with `finalUnits = ["ROIL1", "ROM1", "ROV1"]` and
`incidentLabel` equal to the fixed literal `"Brandalarm (ABA)"`. -/
theorem c1_resolve_aba_amended
    (mx : List (String × List (String × IncidentProfile))) (aba : List AbaRow)
    (addr : KnownAddress) (incident_code : String) (site : AbaSite)
    (hcode : incident_code.pyStrip = "BAAl")
    (hmatch : match_components aba addr.street addr.house_no addr.house_letter
      addr.postcode = some site)
    (hprim : site.primary_response = "ROIL1,ROM1,ROV1") :
    (resolve mx aba addr incident_code false).map
      (fun r => (r.final_units, r.incident_label)) =
      Except.ok (["ROIL1", "ROM1", "ROV1"], "Brandalarm (ABA)") := by
  have e1 : String.pyStrip "BAAl" = "BAAl" := rfl
  have e2 : parse_units "ROIL1,ROM1,ROV1" = ["ROIL1", "ROM1", "ROV1"] := rfl
  simp [resolve, hcode, hmatch, apply_aba_rules_case_sensitive,
    units_from_aba_site, hprim, e1, e2, Except.map]

/-- C1 counterexample: at a concrete directory and address matching the
claim's hypotheses, `incidentLabel` is the Danish literal
`"Brandalarm (ABA)"`, not the claim's `"Fire alarm (ABA)"` (while
`finalUnits` is as claimed). -/
theorem c1_counterexample :
    (resolve emptyMatrix (abaLoad [rowGood]) addrMaple "BAAl" false).map
      (fun r => (r.final_units, r.incident_label)) =
      Except.ok (["ROIL1", "ROM1", "ROV1"], "Brandalarm (ABA)") ∧
    ("Brandalarm (ABA)" : String) ≠ "Fire alarm (ABA)" :=
  ⟨rfl, by decide⟩

/-- C1 witness: the amended statement at the counterexample's concrete
input. -/
theorem c1_witness :
    (resolve emptyMatrix (abaLoad [rowGood]) addrMaple "BAAl" false).map
      (fun r => (r.final_units, r.incident_label)) =
      Except.ok (["ROIL1", "ROM1", "ROV1"], "Brandalarm (ABA)") :=
  c1_resolve_aba_amended emptyMatrix (abaLoad [rowGood]) addrMaple "BAAl"
    (mkSiteComp (enrichAbaRow rowGood)) rfl rfl rfl

/-- C9: when the trimmed incident code is `"BAAl"` and an ABA site is
matched but the chosen response parses to an empty unit list, `resolve`
does not fail: it returns a callout with empty `finalUnits`, an ABA rule
that did not apply whose reason notes the matched site's empty response
list, and the matched site in the `abaSite` field. -/
theorem c9_resolve_empty_response
    (mx : List (String × List (String × IncidentProfile))) (aba : List AbaRow)
    (addr : KnownAddress) (incident_code : String) (use_secondary : Bool)
    (site : AbaSite)
    (hcode : incident_code.pyStrip = "BAAl")
    (hmatch : match_components aba addr.street addr.house_no addr.house_letter
      addr.postcode = some site)
    (hempty : units_from_aba_site site use_secondary = []) :
    (resolve mx aba addr incident_code use_secondary).map
      (fun r => (r.final_units, r.aba_rule.applied, r.aba_rule.reason, r.aba_site)) =
      Except.ok ([], false,
        "BAAl + ABA match (" ++ site.doa_no ++ " / " ++ site.name ++
          ") but response list empty.",
        some site) := by
  have e1 : String.pyStrip "BAAl" = "BAAl" := rfl
  simp [resolve, hcode, hmatch, apply_aba_rules_case_sensitive, hempty, e1,
    Except.map]

/-- C9 witness: a loaded in-service row with an empty primary response;
resolving `"BAAl"` at its address succeeds with empty final units. -/
theorem c9_witness :
    (resolve emptyMatrix (abaLoad [rowEmptyResp]) addrBirke "BAAl" false).map
      (fun r => (r.final_units, r.aba_rule.applied, r.aba_rule.reason, r.aba_site)) =
      Except.ok ([], false,
        "BAAl + ABA match (" ++ (mkSiteComp (enrichAbaRow rowEmptyResp)).doa_no ++
          " / " ++ (mkSiteComp (enrichAbaRow rowEmptyResp)).name ++
          ") but response list empty.",
        some (mkSiteComp (enrichAbaRow rowEmptyResp))) :=
  c9_resolve_empty_response emptyMatrix (abaLoad [rowEmptyResp]) addrBirke "BAAl"
    false (mkSiteComp (enrichAbaRow rowEmptyResp)) rfl rfl rfl

/-- C10: after an Incident Matrix load, `getProfile` on a district sheet
is a function of the pair (so each `(districtNo, incidentCode)` pair maps
to at most one profile), and it returns the profile built from the LAST
valid sheet row whose trimmed incident code matches — later rows with the
same trimmed code overwrite earlier ones. -/
theorem c10_incident_matrix_last_row_wins (name : String) (rows : List IncRow)
    (c : String) :
    get_profile (loadMatrix [(name, rows)]) name c =
      ((rows.filter (fun r => validIncRow r && r.code.pyStrip = c.pyStrip)).getLast?).map
        (mkProfile name.pyStrip) := by
  unfold loadMatrix get_profile
  simp only [List.foldl_cons, List.foldl_nil]
  rw [dictLookup_dictInsert, if_pos rfl]
  show dictLookup c.pyStrip (loadSheet name.pyStrip rows) = _
  unfold loadSheet
  rw [loadSheet_foldl_lookup]
  cases (rows.filter (fun r => validIncRow r && r.code.pyStrip = c.pyStrip)).getLast? <;>
    simp [dictLookup]

/-- The composer's part filter keeps exactly the parts that do not strip
to empty. -/
theorem compose_filter_cond_eq :
    (fun p : String => p ≠ "" && p.pyStrip ≠ "") =
      (fun p : String => p.pyStrip ≠ "") := by
  funext p
  by_cases h : p.pyStrip = ""
  · simp [h]
  · simp [h, ne_empty_of_pyStrip_ne h]

theorem pyStrip_empty : String.pyStrip "" = "" := rfl

/-- Prefixing `"# "` never yields the empty string. -/
theorem hash_prefix_ne_empty (x : String) : ("# " ++ x) ≠ "" := by
  intro h
  have hd := congrArg String.data h
  simp [String.data_append] at hd

/-- C8 counterexample: with an empty address display and a non-empty
city, the composed ABA text contains the city (the code's fallback),
which the claim's format — address display with commas removed, empty
parts dropped — cannot produce. -/
theorem c8_counterexample :
    compose_alert_text composeInputC8 ["U1"] =
      "ABA City Site P1 BRANDALARM - U1" ∧
    composeAbaClaimC8 composeInputC8 ["U1"] =
      "ABA Site P1 BRANDALARM - U1" ∧
    compose_alert_text composeInputC8 ["U1"] ≠
      composeAbaClaimC8 composeInputC8 ["U1"] :=
  ⟨rfl, rfl, by decide⟩

/-- C8 (amended): for every compose call with incident code `"BAAl"`, the
output is the single-space join, in the fixed order
`["ABA", address, abaSiteName, priority, incidentText, comments?, "-",
units]`, of the parts that do not strip to empty, where: the address part
is the stripped display with commas removed (or the stripped city when
the display strips to empty), the site name is stripped, the comments are
stripped and kept only when non-blank with a `"# "` prefix, and the units
part joins the stripped unit tokens skipping blank ones. -/
theorem c8_compose_aba_amended (inp : CalloutTextInput) (units : List String)
    (hcode : inp.incident_code = "BAAl") :
    compose_alert_text inp units = composeAbaAmendedC8 inp units := by
  unfold compose_alert_text composeAbaAmendedC8 units_to_str format_address
  rw [hcode, if_pos rfl, compose_filter_cond_eq]
  by_cases haddr : inp.address_display.pyStrip = "" <;>
    cases hc : inp.dispatch_comments with
  | none => simp [haddr, pyStrip_empty]
  | some ccc =>
    by_cases hcc : ccc.pyStrip = ""
    · simp [haddr, hcc]
    · simp [haddr, hcc, hash_prefix_ne_empty]

/-- C8 witness: the amended statement at the counterexample's input. -/
theorem c8_witness :
    compose_alert_text composeInputC8 ["U1"] = composeAbaAmendedC8 composeInputC8 ["U1"] :=
  c8_compose_aba_amended composeInputC8 ["U1"] rfl

/-- C7 counterexample: two directory rows with house letters `"B"` then
`"A"`; the code returns them sorted by house letter, not in directory
order as the claim states. -/
theorem c7_counterexample :
    find_by_components [addrRowB, addrRowA] "PILEVEJ" "1" "" 30 =
      [addrRowA, addrRowB] ∧
    findByComponentsClaimC7 [addrRowB, addrRowA] "PILEVEJ" "1" "" 30 =
      [addrRowB, addrRowA] ∧
    find_by_components [addrRowB, addrRowA] "PILEVEJ" "1" "" 30 ≠
      findByComponentsClaimC7 [addrRowB, addrRowA] "PILEVEJ" "1" "" 30 :=
  ⟨rfl, rfl, by decide⟩

/-- C7 (amended): `findByComponents` returns only addresses whose
normalized street and house number equal the normalized query components,
at most `limit` of them, sorted by the house-letter field (code-point
order, ties in directory order); when the normalized extra is non-empty
and at least one street/number hit's normalized display contains it, every
returned address's normalized display contains the normalized extra. -/
theorem c7_find_by_components_amended (dir : List KnownAddress)
    (street house_no house_extra : String) (limit : Nat) :
    (∀ a ∈ find_by_components dir street house_no house_extra limit,
      normalize_text a.street = normalize_text street ∧
      normalize_text a.house_no = normalize_text house_no) ∧
    (find_by_components dir street house_no house_extra limit).length ≤ limit ∧
    List.Pairwise
      (fun x y : KnownAddress =>
        charListLe x.house_letter.toList y.house_letter.toList = true)
      (find_by_components dir street house_no house_extra limit) ∧
    ((normalize_text house_extra ≠ "" ∧
      ∃ r ∈ findBaseHits dir street house_no,
        containsSeq (normalize_text house_extra).toList
          (normalize_text r.display).toList = true) →
      ∀ a ∈ find_by_components dir street house_no house_extra limit,
        containsSeq (normalize_text house_extra).toList
          (normalize_text a.display).toList = true) := by
  have hsub : ∀ a ∈ find_by_components dir street house_no house_extra limit,
      a ∈ narrowedHits dir street house_no house_extra := by
    intro a ha
    exact (List.perm_insertionSort _ _).subset (List.take_subset _ _ ha)
  have hbase : ∀ a ∈ narrowedHits dir street house_no house_extra,
      a ∈ findBaseHits dir street house_no := by
    intro a ha
    simp only [narrowedHits] at ha
    split at ha
    · split at ha
      · exact ha
      · exact (List.mem_filter.mp ha).1
    · exact ha
  refine ⟨?_, ?_, ?_, ?_⟩
  · intro a ha
    have hb := hbase a (hsub a ha)
    unfold findBaseHits at hb
    exact of_decide_eq_true (List.mem_filter.mp hb).2
  · unfold find_by_components
    exact List.length_take_le _ _
  · unfold find_by_components
    haveI : IsTrans KnownAddress
        (fun x y => charListLe x.house_letter.toList y.house_letter.toList = true) :=
      ⟨fun _ _ _ => charListLe_trans⟩
    haveI : IsTotal KnownAddress
        (fun x y => charListLe x.house_letter.toList y.house_letter.toList = true) :=
      ⟨fun _ _ => charListLe_total _ _⟩
    exact List.Pairwise.sublist (List.take_sublist _ _)
      (List.sorted_insertionSort _ _)
  · rintro ⟨hq, r0, hr0, hc0⟩ a ha
    have hn := hsub a ha
    simp only [narrowedHits] at hn
    rw [if_pos hq] at hn
    have hne : ((findBaseHits dir street house_no).filter
        (fun r => containsSeq (normalize_text house_extra).toList
          (normalize_text r.display).toList)).isEmpty = false :=
      List.isEmpty_eq_false.mpr
        (List.ne_nil_of_mem (List.mem_filter.mpr ⟨hr0, hc0⟩))
    rw [if_neg (by rw [hne]; simp)] at hn
    exact (List.mem_filter.mp hn).2

/-- C7 witness: the extra-narrowing clause of the amended statement at a
concrete one-row directory. -/
theorem c7_witness :
    containsSeq (normalize_text "A").toList
      (normalize_text addrRowA.display).toList = true :=
  (c7_find_by_components_amended [addrRowA] "PILEVEJ" "1" "A" 30).2.2.2
    ⟨by decide, addrRowA, by decide, by decide⟩ addrRowA (by decide)

/-- C4: when an in-service `"*FEJL*"` row and an in-service usable row
share the same address (hence the same `keyBasic`), the loaded directory
keeps the usable row and `matchAddress` on that address returns it — never
the error row — for both relative orderings of the two rows in the source
file. -/
theorem c4_aba_scoring (r1 r2 : AbaRawRow)
    (hadr : r1.adresse.pyStrip = r2.adresse.pyStrip)
    (hpn : r1.postnr_bynavn.pyStrip = r2.postnr_bynavn.pyStrip)
    (hd1 : hasWordDrift (lowerStr r1.status.pyStrip).toList = true)
    (hd2 : hasWordDrift (lowerStr r2.status.pyStrip).toList = true)
    (hfejl : r1.primaer.pyStrip = "*FEJL*")
    (hu1 : r2.primaer.pyStrip ≠ "") (hu2 : r2.primaer.pyStrip ≠ "-")
    (hu3 : r2.primaer.pyStrip ≠ "*FEJL*") :
    match_address (abaLoad [r1, r2])
        (r2.adresse.pyStrip ++ ", " ++ r2.postnr_bynavn.pyStrip) =
      some (mkSiteAddr (enrichAbaRow r2)) ∧
    match_address (abaLoad [r2, r1])
        (r2.adresse.pyStrip ++ ", " ++ r2.postnr_bynavn.pyStrip) =
      some (mkSiteAddr (enrichAbaRow r2)) := by
  have hkey : (enrichAbaRow r1).key_basic = (enrichAbaRow r2).key_basic := by
    simp only [enrichAbaRow]
    rw [hadr, hpn]
  have hs1 : (enrichAbaRow r1).score ≤ -84 := by
    simp only [enrichAbaRow]
    rw [hfejl]
    exact aba_row_score_fejl_le _ _ _
  have hs2 : 100 ≤ (enrichAbaRow r2).score := by
    simp only [enrichAbaRow]
    exact aba_row_score_usable_ge _ _ _ hu1 hu2 hu3
  have hno : ¬ abaSortRel (enrichAbaRow r1) (enrichAbaRow r2) := by
    intro h
    rcases h with h | ⟨_, hsc⟩
    · rw [hkey, charListLt_irrefl] at h
      exact Bool.false_ne_true h
    · omega
  have hyes : abaSortRel (enrichAbaRow r2) (enrichAbaRow r1) :=
    Or.inr ⟨hkey.symm, by omega⟩
  have hfilter1 : List.filter
      (fun r => hasWordDrift (lowerStr r.status.pyStrip).toList) [r1, r2] =
      [r1, r2] := by
    simp only [List.filter_cons, List.filter_nil]
    rw [hd1, hd2]
    simp
  have hfilter2 : List.filter
      (fun r => hasWordDrift (lowerStr r.status.pyStrip).toList) [r2, r1] =
      [r2, r1] := by
    simp only [List.filter_cons, List.filter_nil]
    rw [hd1, hd2]
    simp
  have hload1 : abaLoad [r1, r2] = [enrichAbaRow r2] := by
    unfold abaLoad
    rw [hfilter1]
    simp only [List.map_cons, List.map_nil]
    simp only [List.insertionSort, List.orderedInsert]
    rw [if_neg hno]
    simp [dedupByKey, dedupByKeyAux, hkey]
  have hload2 : abaLoad [r2, r1] = [enrichAbaRow r2] := by
    unfold abaLoad
    rw [hfilter2]
    simp only [List.map_cons, List.map_nil]
    simp only [List.insertionSort, List.orderedInsert]
    rw [if_pos hyes]
    simp [dedupByKey, dedupByKeyAux, hkey]
  have hmatch : match_address [enrichAbaRow r2]
      (r2.adresse.pyStrip ++ ", " ++ r2.postnr_bynavn.pyStrip) =
      some (mkSiteAddr (enrichAbaRow r2)) := by
    unfold match_address selAddress
    have hmf : List.filter
        (fun r : AbaRow => r.address_norm =
          normalize_text (r2.adresse.pyStrip ++ ", " ++ r2.postnr_bynavn.pyStrip))
        [enrichAbaRow r2] = [enrichAbaRow r2] := by
      simp [enrichAbaRow]
    rw [hmf]
    simp only [List.head?_cons]
    rw [if_neg]
    show ¬ (enrichAbaRow r2).primaer.pyStrip = "*FEJL*"
    simp only [enrichAbaRow]
    rw [pyStrip_idem]
    exact hu3
  constructor
  · rw [hload1]; exact hmatch
  · rw [hload2]; exact hmatch

/-- C4 witness: concrete error and usable rows for the same address, in
both file orders. -/
theorem c4_witness :
    match_address (abaLoad [rowFejl, rowGood])
        (rowGood.adresse.pyStrip ++ ", " ++ rowGood.postnr_bynavn.pyStrip) =
      some (mkSiteAddr (enrichAbaRow rowGood)) ∧
    match_address (abaLoad [rowGood, rowFejl])
        (rowGood.adresse.pyStrip ++ ", " ++ rowGood.postnr_bynavn.pyStrip) =
      some (mkSiteAddr (enrichAbaRow rowGood)) :=
  c4_aba_scoring rowFejl rowGood rfl rfl (by decide) (by decide) rfl
    (by decide) (by decide) (by decide)
